import Mathlib

/-!
Verification of the certificate-generator backend (src/app.py).

The development shallowly embeds the Python program: dictionaries become
association lists, Python string operations become explicit functions on
`String`, the nondeterministic inputs (wall-clock time, the uuid4 hex token,
the temporary-file path, the external wkhtmltopdf renderer outcome and the
outcome of `os.unlink`) become explicit parameters, and the big HTML f-string
template becomes an explicit alternating list of static chunks and dynamic
slots (`htmlSegments`) whose concatenation is the composed document.
-/

/-- Python dict of string keys and values, as an association list
(keys unique in actual requests; lookup takes the first binding). -/
abbrev AttrSet := List (String × String)

/-- Python `data.get(k, d)`: the stored value when the key is present
(even when the stored value is the empty string), else the default. -/
def pyGet (data : AttrSet) (k d : String) : String :=
  (data.lookup k).getD d

/-- Python `s[:n]` slice: the first `n` characters, or all of `s` when it is
shorter. -/
def pySliceTo (s : String) (n : Nat) : String :=
  String.mk (s.data.take n)

/-- Python `s.lower()`, character-wise (all strings involved are ASCII). -/
def pyLower (s : String) : String :=
  String.mk (s.data.map Char.toLower)

/-- Python `s.upper()`, character-wise (all strings involved are ASCII). -/
def pyUpper (s : String) : String :=
  String.mk (s.data.map Char.toUpper)

/-- Boolean substring search on character lists: does `pat` occur as a
contiguous run inside the second list? -/
def charsInfixOf (pat : List Char) : List Char → Bool
  | [] => pat.isEmpty
  | c :: cs => pat.isPrefixOf (c :: cs) || charsInfixOf pat cs

/-- Python `pat in s` substring containment. -/
def pyContains (s pat : String) : Bool :=
  charsInfixOf pat.data s.data

/-- Concatenation of the pieces of an f-string, in order. -/
def joinAll : List String → String
  | [] => ""
  | s :: rest => s ++ joinAll rest

/-- Style string returned at line 74 of src/app.py for a falsy status
(None or the empty string). -/
def STYLE_GRAY : String :=
  "background: #6c757d; color: white;"

/-- Style string returned at line 78 of src/app.py for a success status. -/
def STYLE_SUCCESS : String :=
  "background: linear-gradient(45deg, #28a745, #20c997); color: white; box-shadow: 0 4px 15px rgba(40, 167, 69, 0.4);"

/-- Style string returned at line 80 of src/app.py for a failure status. -/
def STYLE_FAILURE : String :=
  "background: linear-gradient(45deg, #dc3545, #e74c3c); color: white; box-shadow: 0 4px 15px rgba(220, 53, 69, 0.4);"

/-- Style string returned at line 82 of src/app.py for any other status. -/
def STYLE_AMBER : String :=
  "background: linear-gradient(45deg, #ffc107, #fd7e14); color: #212529; box-shadow: 0 4px 15px rgba(255, 193, 7, 0.4);"

/-- Mirrors `ProfessionalCertificateGenerator.get_status_badge_style`
(src/app.py lines 71-82).  `none` models a Python `None` argument; the
Python guard `if not status` is true exactly for `None` and `""`. -/
def get_status_badge_style : Option String → String
  | none => STYLE_GRAY
  | some status =>
    if status = "" then STYLE_GRAY
    else
      let status_lower := pyLower status
      if pyContains status_lower "pass" || pyContains status_lower "success"
          || pyContains status_lower "complete" then STYLE_SUCCESS
      else if pyContains status_lower "fail" || pyContains status_lower "error" then
        STYLE_FAILURE
      else STYLE_AMBER

/-- Mirrors line 89 of src/app.py: the display identifier is
`data.get("certificate_id", "CERT-" + uuid.uuid4().hex[:8].upper())`, where
`uuidHex` stands for the value of `uuid.uuid4().hex` drawn for this
invocation (32 lowercase hex characters at runtime). -/
def resolve_cert_id (uuidHex : String) (data : AttrSet) : String :=
  pyGet data "certificate_id" ("CERT-" ++ pyUpper (pySliceTo uuidHex 8))

/-- The alternating static chunks and interpolated slots of the HTML
f-string template of src/app.py lines 93-755, in source order: static text
at even positions, interpolated expressions at odd positions (46 static
chunks, 45 slots, 91 segments). -/
def htmlSegments (current_time issue_date cert_id final_status status_badge_style : String)
    (data : AttrSet) : List String :=
  [
  "\n        <!DOCTYPE html>\n        <html lang=\"en\">\n        <head>\n            <meta charset=\"UTF-8\">\n            <meta name=\"viewport\" content=\"width=device-width, initial-scale=1.0\">\n            <title>Certificate of Authenticity - ",
  cert_id,
  "</title>\n            <style>\n                @import url(\x27https://fonts.googleapis.com/css2?family=Playfair+Display:wght@400;600;700&family=Inter:wght@300;400;500;600;700&display=swap\x27);\n                \n                * \x7b\n                    margin: 0;\n                    padding: 0;\n                    box-sizing: border-box;\n                \x7d\n                \n                body \x7b\n                    font-family: \x27Inter\x27, sans-serif;\n                    background: linear-gradient(135deg, #667eea 0%, #764ba2 100%);\n                    color: #2c3e50;\n                    line-height: 1.6;\n                    min-height: 100vh;\n                    padding: 0;\n                \x7d\n                \n                .certificate-container \x7b\n                    max-width: 210mm;\n                    margin: 0 auto;\n                    background: #ffffff;\n                    position: relative;\n                    overflow: hidden;\n                \x7d\n                \n                /* Decorative Elements */\n                .cert-border \x7b\n                    position: absolute;\n                    top: 15px;\n                    left: 15px;\n                    right: 15px;\n                    bottom: 15px;\n                    border: 3px solid #c9a96e;\n                    border-radius: 15px;\n                \x7d\n                \n                .cert-border::before \x7b\n                    content: \x27\x27;\n                    position: absolute;\n                    top: 10px;\n                    left: 10px;\n                    right: 10px;\n                    bottom: 10px;\n                    border: 1px solid #c9a96e;\n                    border-radius: 10px;\n                \x7d\n                \n                .corner-ornament \x7b\n                    position: absolute;\n                    width: 60px;\n                    height: 60px;\n                    background: radial-gradient(circle, #c9a96e 0%, #8b7355 100%);\n                    transform: rotate(45deg);\n                \x7d\n                \n                .corner-ornament.top-left \x7b top: 25px; left: 25px; \x7d\n                .corner-ornament.top-right \x7b top: 25px; right: 25px; \x7d\n                .corner-ornament.bottom-left \x7b bottom: 25px; left: 25px; \x7d\n                .corner-ornament.bottom-right \x7b bottom: 25px; right: 25px; \x7d\n                \n                .corner-ornament::before \x7b\n                    content: \x27\x27;\n                    position: absolute;\n                    top: 50%;\n                    left: 50%;\n                    width: 30px;\n                    height: 30px;\n                    background: #fff;\n                    transform: translate(-50%, -50%);\n                    border-radius: 50%;\n                \x7d\n                \n                .watermark \x7b\n                    position: absolute;\n                    top: 50%;\n                    left: 50%;\n                    transform: translate(-50%, -50%) rotate(-45deg);\n                    font-size: 150px;\n                    font-weight: 100;\n                    color: rgba(201, 169, 110, 0.05);\n                    z-index: 1;\n                    font-family: \x27Playfair Display\x27, serif;\n                    letter-spacing: 10px;\n                \x7d\n                \n                .content \x7b\n                    position: relative;\n                    z-index: 2;\n                    padding: 60px 50px 40px;\n                \x7d\n                \n                /* Header Section */\n                .header \x7b\n                    text-align: center;\n                    margin-bottom: 40px;\n                \x7d\n                \n                .company-logo \x7b\n                    width: 120px;\n                    height: 120px;\n                    margin: 0 auto 20px;\n                    background: linear-gradient(135deg, #667eea 0%, #764ba2 100%);\n                    border-radius: 50%;\n                    display: flex;\n                    align-items: center;\n                    justify-content: center;\n                    color: white;\n                    font-size: 48px;\n                    font-weight: bold;\n                    box-shadow: 0 10px 30px rgba(0,0,0,0.1);\n                \x7d\n                \n                .cert-title \x7b\n                    font-family: \x27Playfair Display\x27, serif;\n                    font-size: 42px;\n                    font-weight: 700;\n                    color: #2c3e50;\n                    margin-bottom: 8px;\n                    text-shadow: 1px 1px 2px rgba(0,0,0,0.1);\n                \x7d\n                \n                .cert-subtitle \x7b\n                    font-size: 16px;\n                    color: #7f8c8d;\n                    font-weight: 300;\n                    letter-spacing: 1px;\n                    text-transform: uppercase;\n                    margin-bottom: 30px;\n                    line-height: 1.4;\n                    word-wrap: break-word;\n                    max-width: 100%;\n                    padding: 0 20px;\n                \x7d\n                \n                /* Certificate Info Bar */\n                .cert-info-bar \x7b\n                    background: linear-gradient(135deg, #f8f9fa 0%, #e9ecef 100%);\n                    border-radius: 15px;\n                    padding: 25px;\n                    margin-bottom: 40px;\n                    box-shadow: inset 0 2px 10px rgba(0,0,0,0.05);\n                    border: 1px solid #dee2e6;\n                \x7d\n                \n                .cert-info-grid \x7b\n                    display: grid;\n                    grid-template-columns: repeat(2, 1fr);\n                    gap: 20px;\n                \x7d\n                \n                .info-item \x7b\n                    display: flex;\n                    align-items: center;\n                    justify-content: space-between;\n                    padding: 15px 20px;\n                    background: white;\n                    border-radius: 10px;\n                    box-shadow: 0 2px 8px rgba(0,0,0,0.08);\n                    border-left: 4px solid #667eea;\n                \x7d\n                \n                .info-label \x7b\n                    font-weight: 600;\n                    color: #495057;\n                    font-size: 14px;\n                \x7d\n                \n                .info-value \x7b\n                    font-weight: 700;\n                    color: #212529;\n                    font-size: 16px;\n                \x7d\n                \n                /* Status Badge */\n                .status-badge \x7b\n                    display: inline-block;\n                    padding: 8px 20px;\n                    border-radius: 25px;\n                    font-size: 14px;\n                    font-weight: 700;\n                    text-transform: uppercase;\n                    letter-spacing: 1px;\n                    ",
  status_badge_style,
  "\n                \x7d\n                \n                .status-checkmark \x7b\n                    color: #28a745;\n                    font-weight: bold;\n                    font-size: 16px;\n                    margin-right: 5px;\n                \x7d\n                \n                /* Data Sections */\n                .data-section \x7b\n                    margin-bottom: 35px;\n                    page-break-inside: avoid;\n                \x7d\n                \n                .section-header \x7b\n                    display: flex;\n                    align-items: center;\n                    margin-bottom: 20px;\n                    padding: 15px 0;\n                    border-bottom: 2px solid #e9ecef;\n                \x7d\n                \n                .section-icon \x7b\n                    width: 40px;\n                    height: 40px;\n                    border-radius: 50%;\n                    display: flex;\n                    align-items: center;\n                    justify-content: center;\n                    color: white;\n                    font-weight: bold;\n                    margin-right: 15px;\n                    font-size: 18px;\n                \x7d\n                \n                .device-icon \x7b background: linear-gradient(135deg, #28a745, #20c997); \x7d\n                .process-icon \x7b background: linear-gradient(135deg, #fd7e14, #f39c12); \x7d\n                .verification-icon \x7b background: linear-gradient(135deg, #dc3545, #e74c3c); \x7d\n                .additional-icon \x7b background: linear-gradient(135deg, #6f42c1, #8e44ad); \x7d\n                \n                .section-title \x7b\n                    font-family: \x27Playfair Display\x27, serif;\n                    font-size: 24px;\n                    font-weight: 600;\n                    color: #2c3e50;\n                \x7d\n                \n                .data-grid \x7b\n                    display: grid;\n                    grid-template-columns: repeat(2, 1fr);\n                    gap: 15px;\n                \x7d\n                \n                .data-item \x7b\n                    background: #f8f9fa;\n                    padding: 20px;\n                    border-radius: 12px;\n                    border: 1px solid #e9ecef;\n                    transition: all 0.3s ease;\n                \x7d\n                \n                .data-item:hover \x7b\n                    background: #fff;\n                    box-shadow: 0 5px 15px rgba(0,0,0,0.1);\n                    transform: translateY(-2px);\n                \x7d\n                \n                .data-label \x7b\n                    font-size: 12px;\n                    font-weight: 600;\n                    color: #6c757d;\n                    text-transform: uppercase;\n                    letter-spacing: 1px;\n                    margin-bottom: 8px;\n                \x7d\n                \n                .data-value \x7b\n                    font-size: 16px;\n                    font-weight: 500;\n                    color: #212529;\n                    word-break: break-all;\n                \x7d\n                \n                /* Certification Statement */\n                .certification-statement \x7b\n                    background: linear-gradient(135deg, #e8f5e8 0%, #f0f8f0 100%);\n                    border: 2px solid #28a745;\n                    border-radius: 15px;\n                    padding: 35px;\n                    margin: 60px 0 40px 0;\n                    text-align: center;\n                    position: relative;\n                    box-shadow: 0 8px 25px rgba(40, 167, 69, 0.15);\n                    page-break-before: always;\n                    page-break-after: always;\n                \x7d\n                \n                \n                .statement-title \x7b\n                    font-family: \x27Playfair Display\x27, serif;\n                    font-size: 28px;\n                    font-weight: 700;\n                    color: #155724;\n                    margin-bottom: 20px;\n                \x7d\n                \n                .statement-text \x7b\n                    font-size: 16px;\n                    color: #155724;\n                    line-height: 1.8;\n                    margin-bottom: 15px;\n                \x7d\n                \n                /* Signature Section */\n                .signature-section \x7b\n                    margin-top: 50px;\n                    page-break-inside: avoid;\n                    page-break-before: always;\n                \x7d\n                \n                .signature-grid \x7b\n                    display: grid;\n                    grid-template-columns: repeat(2, 1fr);\n                    gap: 60px;\n                    margin-top: 40px;\n                \x7d\n                \n                .signature-box \x7b\n                    text-align: center;\n                    position: relative;\n                \x7d\n                \n                .signature-line \x7b\n                    height: 2px;\n                    background: linear-gradient(to right, #667eea, #764ba2);\n                    margin: 50px 20px 15px;\n                    border-radius: 2px;\n                \x7d\n                \n                .signature-role \x7b\n                    font-weight: 700;\n                    font-size: 16px;\n                    color: #2c3e50;\n                    margin-bottom: 8px;\n                \x7d\n                \n                .signature-name \x7b\n                    font-size: 18px;\n                    color: #495057;\n                    margin-bottom: 5px;\n                \x7d\n                \n                .signature-date \x7b\n                    font-size: 12px;\n                    color: #6c757d;\n                \x7d\n                \n                /* Footer */\n                .certificate-footer \x7b\n                    margin-top: 40px;\n                    padding-top: 30px;\n                    border-top: 1px solid #dee2e6;\n                    text-align: center;\n                \x7d\n                \n                .footer-text \x7b\n                    font-size: 11px;\n                    color: #6c757d;\n                    margin-bottom: 10px;\n                \x7d\n                \n                .qr-code \x7b\n                    width: 80px;\n                    height: 80px;\n                    margin: 20px auto 10px;\n                    background: linear-gradient(135deg, #667eea, #764ba2);\n                    border-radius: 10px;\n                    display: flex;\n                    align-items: center;\n                    justify-content: center;\n                    color: white;\n                    font-size: 12px;\n                    font-weight: bold;\n                \x7d\n                \n                /* Print Styles */\n                @media print \x7b\n                    body \x7b background: none; \x7d\n                    .certificate-container \x7b box-shadow: none; \x7d\n                    .certification-statement \x7b \n                        page-break-before: always; \n                        page-break-after: always;\n                        margin-top: 80px;\n                    \x7d\n                    .signature-section \x7b \n                        page-break-before: always; \n                        margin-top: 80px;\n                    \x7d\n                \x7d\n                \n                /* Page Break Utilities for wkhtmltopdf */\n                .page-break-before \x7b\n                    page-break-before: always;\n                \x7d\n                \n                .page-break-inside-avoid \x7b\n                    page-break-inside: avoid;\n                \x7d\n            </style>\n        </head>\n        <body>\n            <div class=\"certificate-container\">\n                <div class=\"cert-border\"></div>\n                <div class=\"corner-ornament top-left\"></div>\n                <div class=\"corner-ornament top-right\"></div>\n                <div class=\"corner-ornament bottom-left\"></div>\n                <div class=\"corner-ornament bottom-right\"></div>\n                <div class=\"watermark\">CERTIFIED</div>\n                \n                <div class=\"content\">\n                    <!-- Header -->\n                    <div class=\"header\">\n                        <div class=\"company-logo\">DS</div>\n                        <h1 class=\"cert-title\">Certificate of Authenticity</h1>\n                        <p class=\"cert-subtitle\">Data Sanitization & Security Verification</p>\n                    </div>\n                    \n                    <!-- Certificate Info Bar -->\n                    <div class=\"cert-info-bar\">\n                        <div class=\"cert-info-grid\">\n                            <div class=\"info-item\">\n                                <span class=\"info-label\">Certificate ID</span>\n                                <span class=\"info-value\">",
  cert_id,
  "</span>\n                            </div>\n                            <div class=\"info-item\">\n                                <span class=\"info-label\">Issue Date</span>\n                                <span class=\"info-value\">",
  issue_date,
  "</span>\n                            </div>\n                            <div class=\"info-item\">\n                                <span class=\"info-label\">Technician</span>\n                                <span class=\"info-value\">",
  pyGet data "technician_name" "N/A",
  "</span>\n                            </div>\n                            <div class=\"info-item\">\n                                <span class=\"info-label\">Status</span>\n                                <span class=\"status-badge\"><span class=\"status-checkmark\">‚úì</span>",
  final_status,
  "</span>\n                            </div>\n                        </div>\n                    </div>\n                    \n                    <!-- Device Information -->\n                    <div class=\"data-section\">\n                        <div class=\"section-header\">\n                            <div class=\"section-icon device-icon\">üíæ</div>\n                            <h2 class=\"section-title\">Device Information</h2>\n                        </div>\n                        <div class=\"data-grid\">\n                            <div class=\"data-item\">\n                                <div class=\"data-label\">Device Type</div>\n                                <div class=\"data-value\">",
  pyGet data "device_type" "N/A",
  "</div>\n                            </div>\n                            <div class=\"data-item\">\n                                <div class=\"data-label\">Manufacturer</div>\n                                <div class=\"data-value\">",
  pyGet data "manufacturer" "N/A",
  "</div>\n                            </div>\n                            <div class=\"data-item\">\n                                <div class=\"data-label\">Model</div>\n                                <div class=\"data-value\">",
  pyGet data "model" "N/A",
  "</div>\n                            </div>\n                            <div class=\"data-item\">\n                                <div class=\"data-label\">Serial Number</div>\n                                <div class=\"data-value\">",
  pyGet data "serial_number" "N/A",
  "</div>\n                            </div>\n                            <div class=\"data-item\">\n                                <div class=\"data-label\">Asset Tag</div>\n                                <div class=\"data-value\">",
  pyGet data "asset_tag" "N/A",
  "</div>\n                            </div>\n                            <div class=\"data-item\">\n                                <div class=\"data-label\">Capacity</div>\n                                <div class=\"data-value\">",
  pyGet data "capacity" "N/A",
  "</div>\n                            </div>\n                            <div class=\"data-item\">\n                                <div class=\"data-label\">Interface</div>\n                                <div class=\"data-value\">",
  pyGet data "interface" "N/A",
  "</div>\n                            </div>\n                            <div class=\"data-item\">\n                                <div class=\"data-label\">Firmware Version</div>\n                                <div class=\"data-value\">",
  pyGet data "firmware_version" "N/A",
  "</div>\n                            </div>\n                        </div>\n                    </div>\n                    \n                    <!-- Sanitization Process -->\n                    <div class=\"data-section\">\n                        <div class=\"section-header\">\n                            <div class=\"section-icon process-icon\">üîÑ</div>\n                            <h2 class=\"section-title\">Sanitization Process</h2>\n                        </div>\n                        <div class=\"data-grid\">\n                            <div class=\"data-item\">\n                                <div class=\"data-label\">Method Used</div>\n                                <div class=\"data-value\">",
  pyGet data "sanitization_method" "N/A",
  "</div>\n                            </div>\n                            <div class=\"data-item\">\n                                <div class=\"data-label\">Standard Compliance</div>\n                                <div class=\"data-value\">",
  pyGet data "standard_compliance" "N/A",
  "</div>\n                            </div>\n                            <div class=\"data-item\">\n                                <div class=\"data-label\">Number of Passes</div>\n                                <div class=\"data-value\">",
  pyGet data "number_of_passes" "N/A",
  "</div>\n                            </div>\n                            <div class=\"data-item\">\n                                <div class=\"data-label\">Algorithm</div>\n                                <div class=\"data-value\">",
  pyGet data "algorithm" "N/A",
  "</div>\n                            </div>\n                            <div class=\"data-item\">\n                                <div class=\"data-label\">Start Time</div>\n                                <div class=\"data-value\">",
  pyGet data "start_time" "N/A",
  "</div>\n                            </div>\n                            <div class=\"data-item\">\n                                <div class=\"data-label\">Duration</div>\n                                <div class=\"data-value\">",
  pyGet data "duration" "N/A",
  "</div>\n                            </div>\n                            <div class=\"data-item\">\n                                <div class=\"data-label\">Software Used</div>\n                                <div class=\"data-value\">",
  pyGet data "software_used" "N/A",
  "</div>\n                            </div>\n                            <div class=\"data-item\">\n                                <div class=\"data-label\">Software Version</div>\n                                <div class=\"data-value\">",
  pyGet data "software_version" "N/A",
  "</div>\n                            </div>\n                        </div>\n                    </div>\n                    \n                    <!-- Verification Results -->\n                    <div class=\"data-section\">\n                        <div class=\"section-header\">\n                            <div class=\"section-icon verification-icon\">‚úì</div>\n                            <h2 class=\"section-title\">Verification Results</h2>\n                        </div>\n                        <div class=\"data-grid\">\n                            <div class=\"data-item\">\n                                <div class=\"data-label\">Pre-wipe Status</div>\n                                <div class=\"data-value\">",
  pyGet data "pre_wipe_verification" "N/A",
  "</div>\n                            </div>\n                            <div class=\"data-item\">\n                                <div class=\"data-label\">Post-wipe Status</div>\n                                <div class=\"data-value\">",
  pyGet data "post_wipe_verification" "N/A",
  "</div>\n                            </div>\n                            <div class=\"data-item\">\n                                <div class=\"data-label\">Verification Method</div>\n                                <div class=\"data-value\">",
  pyGet data "verification_method" "N/A",
  "</div>\n                            </div>\n                            <div class=\"data-item\">\n                                <div class=\"data-label\">Sectors Processed</div>\n                                <div class=\"data-value\">",
  pyGet data "sectors_processed" "N/A",
  "</div>\n                            </div>\n                            <div class=\"data-item\">\n                                <div class=\"data-label\">Data Remnants</div>\n                                <div class=\"data-value\">",
  pyGet data "data_remnants" "N/A",
  "</div>\n                            </div>\n                            <div class=\"data-item\">\n                                <div class=\"data-label\">OS Installation</div>\n                                <div class=\"data-value\">",
  pyGet data "os_installation_status" "N/A",
  "</div>\n                            </div>\n                            <div class=\"data-item\">\n                                <div class=\"data-label\">OS Version</div>\n                                <div class=\"data-value\">",
  pyGet data "os_version" "N/A",
  "</div>\n                            </div>\n                            <div class=\"data-item\">\n                                <div class=\"data-label\">Boot Test</div>\n                                <div class=\"data-value\">",
  pyGet data "boot_test_result" "N/A",
  "</div>\n                            </div>\n                        </div>\n                    </div>\n                    \n                    <!-- Additional Information -->\n                    <div class=\"data-section\">\n                        <div class=\"section-header\">\n                            <div class=\"section-icon additional-icon\">üìã</div>\n                            <h2 class=\"section-title\">Additional Information</h2>\n                        </div>\n                        <div class=\"data-grid\">\n                            <div class=\"data-item\">\n                                <div class=\"data-label\">Customer Name</div>\n                                <div class=\"data-value\">",
  pyGet data "customer_name" "N/A",
  "</div>\n                            </div>\n                            <div class=\"data-item\">\n                                <div class=\"data-label\">Work Order</div>\n                                <div class=\"data-value\">",
  pyGet data "work_order" "N/A",
  "</div>\n                            </div>\n                            <div class=\"data-item\">\n                                <div class=\"data-label\">Location</div>\n                                <div class=\"data-value\">",
  pyGet data "location" "N/A",
  "</div>\n                            </div>\n                            <div class=\"data-item\">\n                                <div class=\"data-label\">Witness</div>\n                                <div class=\"data-value\">",
  pyGet data "witness_name" "N/A",
  "</div>\n                            </div>\n                            <div class=\"data-item\">\n                                <div class=\"data-label\">Temperature</div>\n                                <div class=\"data-value\">",
  pyGet data "temperature" "N/A",
  "</div>\n                            </div>\n                            <div class=\"data-item\">\n                                <div class=\"data-label\">Humidity</div>\n                                <div class=\"data-value\">",
  pyGet data "humidity" "N/A",
  "</div>\n                            </div>\n                        </div>\n                        \n                        <div class=\"data-item\" style=\"grid-column: 1 / -1; margin-top: 15px;\">\n                            <div class=\"data-label\">Notes</div>\n                            <div class=\"data-value\">",
  pyGet data "notes" "N/A",
  "</div>\n                        </div>\n                    </div>\n                    \n                    <!-- Certification Statement -->\n                    <div class=\"certification-statement\">\n                        <h3 class=\"statement-title\">Official Certification</h3>\n                        <p class=\"statement-text\">\n                            This certificate verifies that the above-mentioned storage device has undergone comprehensive \n                            data sanitization procedures in full compliance with industry standards and regulatory requirements.\n                        </p>\n                        <p class=\"statement-text\">\n                            All confidential data has been permanently destroyed using cryptographically secure methods, \n                            rendering any previously stored information completely irrecoverable through any known forensic techniques.\n                        </p>\n                        <p class=\"statement-text\">\n                            <strong>This certification guarantees the complete sanitization of the specified device and \n                            confirms its readiness for secure redeployment or disposal.</strong>\n                        </p>\n                    </div>\n                    \n                    <!-- Signatures -->\n                    <div class=\"signature-section\">\n                        <div class=\"section-header\">\n                            <div class=\"section-icon\" style=\"background: linear-gradient(135deg, #17a2b8, #138496);\">‚úçÔ∏è</div>\n                            <h2 class=\"section-title\">Authorization</h2>\n                        </div>\n                        <div class=\"signature-grid\">\n                            <div class=\"signature-box\">\n                                <div class=\"signature-role\">Certified Technician</div>\n                                <div class=\"signature-line\"></div>\n                                <div class=\"signature-name\">",
  pyGet data "technician_name" "John Smith",
  "</div>\n                                <div class=\"signature-date\">Date: ",
  pyGet data "technician_date" (pySliceTo issue_date 10),
  "</div>\n                            </div>\n                            <div class=\"signature-box\">\n                                <div class=\"signature-role\">Quality Supervisor</div>\n                                <div class=\"signature-line\"></div>\n                                <div class=\"signature-name\">",
  pyGet data "supervisor_name" "Jane Doe",
  "</div>\n                                <div class=\"signature-date\">Date: ",
  pyGet data "supervisor_date" (pySliceTo issue_date 10),
  "</div>\n                            </div>\n                        </div>\n                    </div>\n                    \n                    <!-- Footer -->\n                    <div class=\"certificate-footer\">\n                        <div class=\"qr-code\">\n                            QR CODE<br>\n                            ",
  cert_id,
  "\n                        </div>\n                        <p class=\"footer-text\">\n                            This certificate contains sensitive security information. Handle in accordance with data protection policies.\n                        </p>\n                        <p class=\"footer-text\">\n                            Generated: ",
  current_time,
  " | Document ID: ",
  cert_id,
  " | Verification: secure-verify.com/",
  pyLower cert_id,
  "\n                        </p>\n                    </div>\n                </div>\n            </div>\n        </body>\n        </html>\n        "
  ]

/-- Mirrors `ProfessionalCertificateGenerator.create_certificate_html`
(src/app.py lines 84-757).  `now` stands for the value of
`datetime.now().strftime(...)` and `uuidHex` for `uuid.uuid4().hex`; the
returned document is the concatenation of the `htmlSegments` pieces, exactly
as the f-string of lines 93-755 concatenates its static text and
interpolated expressions. -/
def create_certificate_html (now uuidHex : String) (data : AttrSet) : String :=
  let current_time := now
  let issue_date := pyGet data "issue_date" current_time
  let cert_id := resolve_cert_id uuidHex data
  let final_status := pyGet data "final_status" "VERIFIED"
  let status_badge_style := get_status_badge_style (some final_status)
  joinAll (htmlSegments current_time issue_date cert_id final_status status_badge_style data)

/-- The 32 attribute keys whose template slots default to the literal
string "N/A" when the key is absent (src/app.py lines 525-695). -/
def naFields : List String :=
  ["technician_name", "device_type", "manufacturer", "model",
   "serial_number", "asset_tag", "capacity", "interface",
   "firmware_version", "sanitization_method", "standard_compliance",
   "number_of_passes", "algorithm", "start_time", "duration",
   "software_used", "software_version", "pre_wipe_verification",
   "post_wipe_verification", "verification_method", "sectors_processed",
   "data_remnants", "os_installation_status", "os_version",
   "boot_test_result", "customer_name", "work_order", "location",
   "witness_name", "temperature", "humidity", "notes"]

/-- Position in `htmlSegments` of the designated slot of each
"N/A"-defaulting field (technician_name names its certificate-info slot;
its signature slot at position 75 defaults to "John Smith" instead). -/
def naSlotIndex : String → Nat
  | "technician_name" => 9
  | "device_type" => 13
  | "manufacturer" => 15
  | "model" => 17
  | "serial_number" => 19
  | "asset_tag" => 21
  | "capacity" => 23
  | "interface" => 25
  | "firmware_version" => 27
  | "sanitization_method" => 29
  | "standard_compliance" => 31
  | "number_of_passes" => 33
  | "algorithm" => 35
  | "start_time" => 37
  | "duration" => 39
  | "software_used" => 41
  | "software_version" => 43
  | "pre_wipe_verification" => 45
  | "post_wipe_verification" => 47
  | "verification_method" => 49
  | "sectors_processed" => 51
  | "data_remnants" => 53
  | "os_installation_status" => 55
  | "os_version" => 57
  | "boot_test_result" => 59
  | "customer_name" => 61
  | "work_order" => 63
  | "location" => 65
  | "witness_name" => 67
  | "temperature" => 69
  | "humidity" => 71
  | "notes" => 73
  | _ => 0

/-- The string `pat` occurs contiguously inside `doc`. -/
def hasSubstr (doc pat : String) : Prop :=
  pat.data <:+: doc.data

/-- Environment of one render-pipeline invocation: the outcome of invoking
the external wkhtmltopdf renderer on the written document text
(`pdfkit.from_file`), and the outcome of `os.unlink` on the temporary file
(`none` means the deletion succeeds, `some msg` means it raises an OSError
whose string form is `msg`). -/
structure RenderEnv where
  render : String → Except String String
  unlink : Option String

/-- Observable outcome of `create_certificate`: the returned PDF bytes or the
propagated exception message, the set of existing files afterwards, and the
log lines emitted by the cleanup code and the error handler. -/
structure CCResult where
  result : Except String String
  fs : List String
  log : List String

/-- Mirrors `ProfessionalCertificateGenerator.create_certificate`
(src/app.py lines 759-797).  The temporary HTML file is created at the fresh
path `tempPath` (NamedTemporaryFile with delete=False; writing is assumed to
succeed), the renderer is invoked once on the document, and the
`try/finally` of lines 773-791 runs the cleanup on every exit: Python
semantics make an exception raised by `os.unlink` inside `finally` replace
the in-flight primary result or exception.  The outer `except` of lines
793-797 logs the escaping exception and re-raises it unchanged. -/
def create_certificate (now uuidHex : String) (env : RenderEnv)
    (tempPath : String) (fs : List String) (data : AttrSet) : CCResult :=
  let html_content := create_certificate_html now uuidHex data
  let fs1 := tempPath :: fs
  let body := env.render html_content
  let fin : Except String String × List String × List String :=
    if fs1.contains tempPath then
      match env.unlink with
      | none => (body, fs1.erase tempPath, ["Temporary HTML file cleaned up"])
      | some msg => (Except.error msg, fs1, [])
    else (body, fs1, [])
  match fin with
  | (Except.ok pdf, fs2, lg) => ⟨Except.ok pdf, fs2, lg⟩
  | (Except.error e, fs2, lg) =>
      ⟨Except.error e, fs2, lg ++ ["Error creating certificate: " ++ e]⟩

/-- JSON value in a response body (only the shapes the endpoints emit). -/
inductive JVal
  | s (v : String)
  | b (v : Bool)
  | n (v : Nat)
deriving DecidableEq

/-- Response of a request handler: a JSON body with its HTTP status code, or
a streamed file download (`send_file`). -/
inductive HttpResponse
  | json (code : Nat) (body : List (String × JVal))
  | fileDownload (filename : String) (mimetype : String) (payload : String)
deriving DecidableEq

/-- A response is a structured error response when it is a JSON response with
an HTTP error status code (the endpoints use 400 and 500). -/
def isErrorResponse : HttpResponse → Bool
  | HttpResponse.json code _ => 400 ≤ code
  | _ => false

/-- Mirrors the `generate_certificate` handler (src/app.py lines 802-827).
`input` is the value returned by `request.get_json()`; the guard
`if not data` is true for `None` and for an empty dict.  `nowIso` stands for
`datetime.now().isoformat()`.  The base64 step is not modelled: the
`pdf_base64` field carries the renderer payload itself, which no claim
inspects beyond passing it through. -/
def generate_certificate (now nowIso uuidHex : String) (env : RenderEnv)
    (tempPath : String) (fs : List String) (input : Option AttrSet) :
    HttpResponse × List String :=
  match input with
  | none => (HttpResponse.json 400 [("error", JVal.s "No data provided")], fs)
  | some data =>
    if data.isEmpty then
      (HttpResponse.json 400 [("error", JVal.s "No data provided")], fs)
    else
      let out := create_certificate now uuidHex env tempPath fs data
      match out.result with
      | Except.ok pdf =>
          (HttpResponse.json 200
            [("success", JVal.b true),
             ("message", JVal.s "Professional certificate generated successfully"),
             ("pdf_base64", JVal.s pdf),
             ("filename", JVal.s ("certificate_" ++ pyGet data "certificate_id" "unknown" ++ ".pdf")),
             ("generated_at", JVal.s nowIso)], out.fs)
      | Except.error e =>
          (HttpResponse.json 500
            [("success", JVal.b false),
             ("error", JVal.s ("Failed to generate certificate: " ++ e))], out.fs)

/-- Mirrors the `generate_certificate_file` handler (src/app.py lines
829-854).  `ts` stands for `datetime.now().strftime("%Y%m%d_%H%M%S")`. -/
def generate_certificate_file (now ts uuidHex : String) (env : RenderEnv)
    (tempPath : String) (fs : List String) (input : Option AttrSet) :
    HttpResponse × List String :=
  match input with
  | none => (HttpResponse.json 400 [("error", JVal.s "No data provided")], fs)
  | some data =>
    if data.isEmpty then
      (HttpResponse.json 400 [("error", JVal.s "No data provided")], fs)
    else
      let out := create_certificate now uuidHex env tempPath fs data
      match out.result with
      | Except.ok pdf =>
          (HttpResponse.fileDownload
            ("certificate_" ++ pyGet data "certificate_id" "unknown" ++ "_" ++ ts ++ ".pdf")
            "application/pdf" pdf, out.fs)
      | Except.error e =>
          (HttpResponse.json 500
            [("success", JVal.b false),
             ("error", JVal.s ("Failed to generate certificate: " ++ e))], out.fs)

/-- Mirrors the `preview_certificate` handler (src/app.py lines 856-877):
compose only, no render; `create_certificate_html` cannot raise, so the
`except` branch of the handler is unreachable. -/
def preview_certificate (now uuidHex : String) (input : Option AttrSet) :
    HttpResponse :=
  match input with
  | none => HttpResponse.json 400 [("error", JVal.s "No data provided")]
  | some data =>
    if data.isEmpty then
      HttpResponse.json 400 [("error", JVal.s "No data provided")]
    else
      HttpResponse.json 200
        [("success", JVal.b true),
         ("html_content", JVal.s (create_certificate_html now uuidHex data)),
         ("message", JVal.s "Professional certificate preview generated")]

/-- Mirrors the `test_endpoint` handler (src/app.py lines 888-896): it
always answers 200 with `len(data) if data else 0` parameters counted. -/
def test_endpoint (nowIso : String) (input : Option AttrSet) : HttpResponse :=
  HttpResponse.json 200
    [("message", JVal.s "Professional Certificate API is working"),
     ("received_params", JVal.n (match input with
       | some d => if d.isEmpty then 0 else d.length
       | none => 0)),
     ("timestamp", JVal.s nowIso)]

/-- Segment list of the composed document with the five local values of
create_certificate_html (lines 87-91 of src/app.py) substituted; the
composed document is definitionally the concatenation of these segments. -/
def composedSegments (now uuidHex : String) (data : AttrSet) : List String :=
  htmlSegments now (pyGet data "issue_date" now) (resolve_cert_id uuidHex data)
    (pyGet data "final_status" "VERIFIED")
    (get_status_badge_style (some (pyGet data "final_status" "VERIFIED"))) data

/-- Lowercase hexadecimal digits, the alphabet of `uuid.uuid4().hex`. -/
def hexLowerChars : List Char :=
  "0123456789abcdef".data

/-- Uppercase hexadecimal digits. -/
def hexUpperChars : List Char :=
  "0123456789ABCDEF".data

/-- C1 counterexample: the claim asserts exactly three distinct presentation
styles with every unrecognized or absent status mapping to the same single
neutral style.  In the code an absent status yields the solid gray style of
line 74 while the unrecognized status "VERIFIED" yields the amber gradient of
line 82, two different styles, so the claim is false. -/
theorem c1_counterexample :
    get_status_badge_style none ≠ get_status_badge_style (some "VERIFIED") := by
  decide

/-- C1 (amended): the status styling is a total function with four distinct
outputs: an absent or empty status yields the solid gray neutral style; a
non-empty status whose lower-cased form contains a success token yields the
success style (checked first); else one containing a failure token yields
the failure style; else the amber neutral style; every output is one of the
four fixed styles, and the four styles are pairwise distinct, so an absent
or unrecognized status never receives the success or failure style. -/
theorem c1_amended (s : Option String) :
    ((s = none ∨ s = some "") → get_status_badge_style s = STYLE_GRAY)
    ∧ (∀ t, s = some t → t ≠ "" →
        (pyContains (pyLower t) "pass" = true
          ∨ pyContains (pyLower t) "success" = true
          ∨ pyContains (pyLower t) "complete" = true) →
        get_status_badge_style s = STYLE_SUCCESS)
    ∧ (∀ t, s = some t → t ≠ "" →
        pyContains (pyLower t) "pass" = false →
        pyContains (pyLower t) "success" = false →
        pyContains (pyLower t) "complete" = false →
        (pyContains (pyLower t) "fail" = true
          ∨ pyContains (pyLower t) "error" = true) →
        get_status_badge_style s = STYLE_FAILURE)
    ∧ (∀ t, s = some t → t ≠ "" →
        pyContains (pyLower t) "pass" = false →
        pyContains (pyLower t) "success" = false →
        pyContains (pyLower t) "complete" = false →
        pyContains (pyLower t) "fail" = false →
        pyContains (pyLower t) "error" = false →
        get_status_badge_style s = STYLE_AMBER)
    ∧ (get_status_badge_style s = STYLE_GRAY
        ∨ get_status_badge_style s = STYLE_SUCCESS
        ∨ get_status_badge_style s = STYLE_FAILURE
        ∨ get_status_badge_style s = STYLE_AMBER)
    ∧ (STYLE_GRAY ≠ STYLE_SUCCESS ∧ STYLE_GRAY ≠ STYLE_FAILURE
        ∧ STYLE_GRAY ≠ STYLE_AMBER ∧ STYLE_AMBER ≠ STYLE_SUCCESS
        ∧ STYLE_AMBER ≠ STYLE_FAILURE ∧ STYLE_SUCCESS ≠ STYLE_FAILURE) := by
  refine ⟨?_, ?_, ?_, ?_, ?_, by refine ⟨?_, ?_, ?_, ?_, ?_, ?_⟩ <;> decide⟩
  · rintro (rfl | rfl) <;> rfl
  · rintro t rfl hne hors
    have hcond : (pyContains (pyLower t) "pass" || pyContains (pyLower t) "success"
        || pyContains (pyLower t) "complete") = true := by
      rcases hors with h | h | h <;> simp [h]
    simp only [get_status_badge_style, if_neg hne]
    rw [if_pos hcond]
  · rintro t rfl hne h1 h2 h3 hors
    have hc1 : ¬((pyContains (pyLower t) "pass" || pyContains (pyLower t) "success"
        || pyContains (pyLower t) "complete") = true) := by
      simp [h1, h2, h3]
    have hc2 : (pyContains (pyLower t) "fail" || pyContains (pyLower t) "error") = true := by
      rcases hors with h | h <;> simp [h]
    simp only [get_status_badge_style, if_neg hne]
    rw [if_neg hc1, if_pos hc2]
  · rintro t rfl hne h1 h2 h3 h4 h5
    simp only [get_status_badge_style, if_neg hne, h1, h2, h3, h4, h5]
    rfl
  · rcases s with _ | t
    · exact Or.inl rfl
    · by_cases hne : t = ""
      · subst hne; exact Or.inl rfl
      · simp only [get_status_badge_style, if_neg hne]
        by_cases hs : (pyContains (pyLower t) "pass" || pyContains (pyLower t) "success"
            || pyContains (pyLower t) "complete") = true
        · rw [if_pos hs]; exact Or.inr (Or.inl rfl)
        · rw [if_neg hs]
          by_cases hf : (pyContains (pyLower t) "fail" || pyContains (pyLower t) "error") = true
          · rw [if_pos hf]; exact Or.inr (Or.inr (Or.inl rfl))
          · rw [if_neg hf]; exact Or.inr (Or.inr (Or.inr rfl))

/-- Witness for c1_amended at three concrete statuses: the success status
"PASSED", the failure status "Failed - error", and the unrecognized status
"VERIFIED" (the default of a request that omits final_status). -/
theorem c1_amended_witness :
    get_status_badge_style (some "PASSED") = STYLE_SUCCESS
    ∧ get_status_badge_style (some "Failed - error") = STYLE_FAILURE
    ∧ get_status_badge_style (some "VERIFIED") = STYLE_AMBER :=
  ⟨(c1_amended (some "PASSED")).2.1 "PASSED" rfl (by decide) (Or.inl (by decide)),
   (c1_amended (some "Failed - error")).2.2.1 "Failed - error" rfl (by decide)
     (by decide) (by decide) (by decide) (Or.inl (by decide)),
   (c1_amended (some "VERIFIED")).2.2.2.1 "VERIFIED" rfl (by decide) (by decide)
     (by decide) (by decide) (by decide) (by decide)⟩

/-- C4: the success check of line 77 is evaluated before the failure check of
line 79, so any status containing both a success token and a failure token
classifies as SUCCESS. -/
theorem c4_success_precedence (s : String)
    (hs : pyContains (pyLower s) "pass" = true
        ∨ pyContains (pyLower s) "success" = true
        ∨ pyContains (pyLower s) "complete" = true)
    (hf : pyContains (pyLower s) "fail" = true
        ∨ pyContains (pyLower s) "error" = true) :
    get_status_badge_style (some s) = STYLE_SUCCESS := by
  have hne : s ≠ "" := by
    rintro rfl
    rcases hs with h | h | h <;> simp [pyContains, pyLower, charsInfixOf] at h
  have hcond : (pyContains (pyLower s) "pass" || pyContains (pyLower s) "success"
      || pyContains (pyLower s) "complete") = true := by
    rcases hs with h | h | h <;> simp [h]
  simp only [get_status_badge_style, if_neg hne, hcond, if_true]

/-- Witness for c4_success_precedence at the concrete tie-break example of the
specification, a status containing both "pass" and "fail". -/
theorem c4_success_precedence_witness :
    get_status_badge_style (some "failed but passed retry") = STYLE_SUCCESS :=
  c4_success_precedence "failed but passed retry"
    (Or.inl (by decide)) (Or.inl (by decide))

/-- Helper: every member of a piece list is a substring of the
concatenation of the pieces. -/
theorem hasSubstr_joinAll {x : String} :
    ∀ {l : List String}, x ∈ l → hasSubstr (joinAll l) x := by
  intro l hl
  induction l with
  | nil => cases hl
  | cons s rest ih =>
    rcases List.mem_cons.mp hl with rfl | h
    · refine ⟨[], (joinAll rest).data, ?_⟩
      simp [joinAll, String.data_append]
    · rcases ih h with ⟨a, b, hab⟩
      refine ⟨s.data ++ a, b, ?_⟩
      simp only [joinAll, String.data_append, List.append_assoc]
      rw [← List.append_assoc a, hab]

/-- Helper: a getD read at a position inside the list is a member. -/
theorem getD_mem_of_lt :
    ∀ (l : List String) (n : Nat), n < l.length → l.getD n "" ∈ l
  | a :: as, 0, _ => by simp
  | a :: as, n + 1, h => by
    have hm := getD_mem_of_lt as n (Nat.lt_of_succ_lt_succ (by simpa using h))
    simp only [List.getD_cons_succ]
    exact List.mem_cons_of_mem a hm

/-- Helper: a string containing a nonempty substring is not empty. -/
theorem ne_empty_of_hasSubstr {doc pat : String} (hpat : pat.data ≠ [])
    (h : hasSubstr doc pat) : doc ≠ "" := by
  intro hdoc
  subst hdoc
  exact hpat (List.infix_nil.mp h)

/-- Helper: every field slot index stays inside the 91 segments. -/
theorem naSlotIndex_lt (g : String) : naSlotIndex g < 91 := by
  unfold naSlotIndex
  split <;> decide

/-- C9: in every composed document, the resolved display identifier appears
verbatim in the title slot (position 1), the certificate-info slot (5), the
QR placeholder slot (83) and the footer Document ID slot (87), while the
footer verification-link slot (89) carries its lower-cased form, so the
identifier is identical across the slots only up to letter case. -/
theorem c9_identifier_slots (now uuidHex : String) (data : AttrSet) :
    create_certificate_html now uuidHex data
      = joinAll (composedSegments now uuidHex data)
    ∧ (composedSegments now uuidHex data).getD 1 "" = resolve_cert_id uuidHex data
    ∧ (composedSegments now uuidHex data).getD 5 "" = resolve_cert_id uuidHex data
    ∧ (composedSegments now uuidHex data).getD 83 "" = resolve_cert_id uuidHex data
    ∧ (composedSegments now uuidHex data).getD 87 "" = resolve_cert_id uuidHex data
    ∧ (composedSegments now uuidHex data).getD 89 ""
      = pyLower (resolve_cert_id uuidHex data) :=
  ⟨rfl, rfl, rfl, rfl, rfl, rfl⟩

/-- C10: when technician_date (resp. supervisor_date) is absent, the
matching signature-date slot carries the first ten characters of the
resolved issue date (lines 727 and 733 of src/app.py), and slicing takes the
whole string when it is shorter than ten characters, for any length. -/
theorem c10_signature_dates (now uuidHex : String) (data : AttrSet) :
    (data.lookup "technician_date" = none →
      (composedSegments now uuidHex data).getD 77 ""
        = pySliceTo (pyGet data "issue_date" now) 10)
    ∧ (data.lookup "supervisor_date" = none →
      (composedSegments now uuidHex data).getD 81 ""
        = pySliceTo (pyGet data "issue_date" now) 10)
    ∧ ((pyGet data "issue_date" now).length ≤ 10 →
        pySliceTo (pyGet data "issue_date" now) 10 = pyGet data "issue_date" now) := by
  refine ⟨?_, ?_, ?_⟩
  · intro htech
    show pyGet data "technician_date" (pySliceTo (pyGet data "issue_date" now) 10) = _
    simp [pyGet, htech]
  · intro hsup
    show pyGet data "supervisor_date" (pySliceTo (pyGet data "issue_date" now) 10) = _
    simp [pyGet, hsup]
  · intro hlen
    have hlen2 : (pyGet data "issue_date" now).data.length ≤ 10 := hlen
    show String.mk ((pyGet data "issue_date" now).data.take 10) = _
    rw [List.take_of_length_le hlen2]

/-- Witness for c10_signature_dates at a mixed attribute set: issue_date is
pinned to "2024-03-15 14:30:00", supervisor_date is supplied but
technician_date is absent, and the technician signature-date slot renders
the ten-character prefix "2024-03-15". -/
theorem c10_signature_dates_witness :
    (composedSegments "2025-01-01 00:00:00" "aaaaaaaa"
        [("issue_date", "2024-03-15 14:30:00"),
         ("supervisor_date", "2024-03-16")]).getD 77 "" = "2024-03-15" := by
  have h := c10_signature_dates "2025-01-01 00:00:00" "aaaaaaaa"
    [("issue_date", "2024-03-15 14:30:00"), ("supervisor_date", "2024-03-16")]
  exact (h.1 rfl).trans (by decide)

/-- C3: composition always terminates; for every attribute set and every one
of the 32 enumerated "N/A"-defaulting fields, when the caller omits the
field its designated slot renders the literal string "N/A", the composed
document contains "N/A", and the composed document is non-empty. -/
theorem c3_na_defaults (now uuidHex : String) (data : AttrSet) (f : String)
    (hf : f ∈ naFields) (hmiss : data.lookup f = none) :
    (composedSegments now uuidHex data).getD (naSlotIndex f) "" = "N/A"
    ∧ hasSubstr (create_certificate_html now uuidHex data) "N/A"
    ∧ create_certificate_html now uuidHex data ≠ "" := by
  have hslot : (composedSegments now uuidHex data).getD (naSlotIndex f) "" = "N/A" := by
    fin_cases hf <;>
      · change pyGet data _ "N/A" = "N/A"
        simp [pyGet, hmiss]
  have hlt : naSlotIndex f < (composedSegments now uuidHex data).length := by
    have hlen : (composedSegments now uuidHex data).length = 91 := rfl
    rw [hlen]
    exact naSlotIndex_lt f
  have hmem : "N/A" ∈ composedSegments now uuidHex data :=
    hslot ▸ getD_mem_of_lt _ _ hlt
  have hsub : hasSubstr (create_certificate_html now uuidHex data) "N/A" :=
    hasSubstr_joinAll hmem
  exact ⟨hslot, hsub, ne_empty_of_hasSubstr (by decide) hsub⟩

/-- Witness for c3_na_defaults: the empty attribute set omits device_type and
its slot renders "N/A". -/
theorem c3_na_defaults_witness :
    (composedSegments "2024-03-15 14:30:00" "0123456789abcdef0123456789abcdef"
        []).getD (naSlotIndex "device_type") "" = "N/A"
    ∧ hasSubstr (create_certificate_html "2024-03-15 14:30:00"
        "0123456789abcdef0123456789abcdef" []) "N/A"
    ∧ create_certificate_html "2024-03-15 14:30:00"
        "0123456789abcdef0123456789abcdef" [] ≠ "" :=
  c3_na_defaults "2024-03-15 14:30:00" "0123456789abcdef0123456789abcdef" []
    "device_type" (by decide) rfl

/-- C2 counterexample: with certificate_id present but equal to the empty
string, line 89 keeps the empty string as the display identifier (dict.get
falls back only on absent keys), not a synthesized CERT-prefixed token as
the claim states for non-empty-or-absent values; and for the identifier
"CERT-TEST-1" the verification-link slot carries the lower-cased form
"cert-test-1", so the identifier does not appear verbatim in that slot. -/
theorem c2_counterexample :
    (resolve_cert_id "0123456789abcdef0123456789abcdef" [("certificate_id", "")] = ""
      ∧ "" ≠ "CERT-" ++ pyUpper (pySliceTo "0123456789abcdef0123456789abcdef" 8))
    ∧ ((composedSegments "2024-03-15 14:30:00" "0123456789abcdef0123456789abcdef"
          [("certificate_id", "CERT-TEST-1")]).getD 89 "" = "cert-test-1"
      ∧ ("cert-test-1" : String) ≠ "CERT-TEST-1") :=
  ⟨⟨rfl, by decide⟩, by decide, by decide⟩

/-- C2 (amended): the display identifier equals attributes certificate_id
whenever that key is present, even with an empty value; when the key is
absent it is the literal "CERT-" followed by the first eight characters of
the uuid4 hex string upper-cased, which for a runtime uuid4 value is eight
uppercase hexadecimal characters; the identifier is resolved once per
invocation and appears verbatim in the title, certificate-info, QR and
footer Document ID slots, and lower-cased in the verification-link slot. -/
theorem c2_amended (now uuidHex : String) (data : AttrSet) :
    (∀ cid, data.lookup "certificate_id" = some cid →
      resolve_cert_id uuidHex data = cid)
    ∧ (data.lookup "certificate_id" = none →
      resolve_cert_id uuidHex data = "CERT-" ++ pyUpper (pySliceTo uuidHex 8))
    ∧ (8 ≤ uuidHex.length → (pyUpper (pySliceTo uuidHex 8)).length = 8)
    ∧ ((∀ c ∈ uuidHex.data, c ∈ hexLowerChars) →
      ∀ c ∈ (pyUpper (pySliceTo uuidHex 8)).data, c ∈ hexUpperChars)
    ∧ ((composedSegments now uuidHex data).getD 1 "" = resolve_cert_id uuidHex data
      ∧ (composedSegments now uuidHex data).getD 5 "" = resolve_cert_id uuidHex data
      ∧ (composedSegments now uuidHex data).getD 83 "" = resolve_cert_id uuidHex data
      ∧ (composedSegments now uuidHex data).getD 87 "" = resolve_cert_id uuidHex data
      ∧ (composedSegments now uuidHex data).getD 89 ""
        = pyLower (resolve_cert_id uuidHex data)) := by
  refine ⟨?_, ?_, ?_, ?_, rfl, rfl, rfl, rfl, rfl⟩
  · intro cid h
    simp [resolve_cert_id, pyGet, h]
  · intro h
    simp [resolve_cert_id, pyGet, h]
  · intro h
    show ((uuidHex.data.take 8).map Char.toUpper).length = 8
    rw [List.length_map, List.length_take]
    exact Nat.min_eq_left h
  · intro hall c hc
    have hc2 : c ∈ (uuidHex.data.take 8).map Char.toUpper := hc
    rcases List.mem_map.mp hc2 with ⟨c0, hc0, rfl⟩
    have hmem : c0 ∈ hexLowerChars := hall c0 (List.mem_of_mem_take hc0)
    have hall2 : hexLowerChars.all (fun d => decide (d.toUpper ∈ hexUpperChars)) = true := by
      decide
    exact of_decide_eq_true (List.all_eq_true.mp hall2 c0 hmem)

/-- Witness for c2_amended: with an absent certificate_id and the uuid4 hex
value a1b2c3d4e5f60718293a4b5c6d7e8f90, the synthesized identifier is
CERT-A1B2C3D4, whose token has length eight. -/
theorem c2_amended_witness :
    resolve_cert_id "a1b2c3d4e5f60718293a4b5c6d7e8f90" [] = "CERT-A1B2C3D4"
    ∧ (pyUpper (pySliceTo "a1b2c3d4e5f60718293a4b5c6d7e8f90" 8)).length = 8 := by
  have h := c2_amended "2024-03-15 14:30:00" "a1b2c3d4e5f60718293a4b5c6d7e8f90" []
  exact ⟨(h.2.1 rfl).trans (by decide), h.2.2.1 (by decide)⟩

/-- Helper: a suffix is found by the substring search. -/
theorem charsInfixOf_append_self (m : List Char) :
    ∀ pre : List Char, charsInfixOf m (pre ++ m) = true := by
  intro pre
  induction pre with
  | nil =>
    cases m with
    | nil => rfl
    | cons c cs =>
      show ((c :: cs).isPrefixOf (c :: cs) || charsInfixOf (c :: cs) cs) = true
      rw [List.isPrefixOf_iff_prefix.mpr (List.prefix_refl (c :: cs))]
      rfl
  | cons p ps ih =>
    show (m.isPrefixOf (p :: (ps ++ m)) || charsInfixOf m (ps ++ m)) = true
    rw [ih]
    exact Bool.or_true _

/-- C5 counterexample: the claim says cleanup failure is logged but never
masks the primary outcome, and that the transient file is gone after every
invocation.  With a successful render and a failing `os.unlink`, the bare
unlink inside the finally block (line 790) raises: `create_certificate`
returns the deletion error instead of the rendered PDF and the temporary
file still exists, falsifying both parts at once. -/
theorem c5_counterexample :
    (create_certificate "2024-03-15 14:30:00" "0123456789abcdef0123456789abcdef"
        ⟨fun _ => Except.ok "PDFBYTES", some "Permission denied"⟩
        "/tmp/cert_a.html" [] [("model", "SSD 990 PRO")]).result
      = Except.error "Permission denied"
    ∧ (create_certificate "2024-03-15 14:30:00" "0123456789abcdef0123456789abcdef"
        ⟨fun _ => Except.ok "PDFBYTES", some "Permission denied"⟩
        "/tmp/cert_a.html" [] [("model", "SSD 990 PRO")]).fs
      = ["/tmp/cert_a.html"] :=
  ⟨rfl, rfl⟩

/-- C5 (amended): the try/finally of lines 773-791 runs the cleanup on every
exit of the renderer invocation.  Whenever the deletion itself succeeds, the
temporary file no longer exists afterwards, the primary result or primary
error is returned unmasked, and the cleanup is logged; but when the deletion
raises, its error replaces the primary outcome (the outer handler logs it
and re-raises) and the file persists. -/
theorem c5_amended (now uuidHex tempPath : String) (env : RenderEnv)
    (fs : List String) (data : AttrSet)
    (hclean : env.unlink = none) (hfresh : tempPath ∉ fs) :
    (create_certificate now uuidHex env tempPath fs data).result
      = env.render (create_certificate_html now uuidHex data)
    ∧ tempPath ∉ (create_certificate now uuidHex env tempPath fs data).fs
    ∧ "Temporary HTML file cleaned up"
      ∈ (create_certificate now uuidHex env tempPath fs data).log := by
  have hc : (tempPath :: fs).contains tempPath = true := by simp
  have he : (tempPath :: fs).erase tempPath = fs := by
    simp [List.erase_cons_head]
  simp only [create_certificate, hclean, hc, if_true, he]
  cases hbody : env.render (create_certificate_html now uuidHex data) with
  | ok pdf => exact ⟨rfl, hfresh, by simp⟩
  | error e => exact ⟨rfl, hfresh, by simp⟩

/-- Witness for c5_amended: with a succeeding renderer and a succeeding
deletion on a fresh temporary path, the PDF is returned and the path is
gone. -/
theorem c5_amended_witness :
    (create_certificate "2024-03-15 14:30:00" "0123456789abcdef0123456789abcdef"
        ⟨fun _ => Except.ok "PDFBYTES", none⟩
        "/tmp/cert_d.html" [] [("capacity", "2TB")]).result
      = Except.ok "PDFBYTES"
    ∧ "/tmp/cert_d.html"
      ∉ (create_certificate "2024-03-15 14:30:00" "0123456789abcdef0123456789abcdef"
          ⟨fun _ => Except.ok "PDFBYTES", none⟩
          "/tmp/cert_d.html" [] [("capacity", "2TB")]).fs := by
  have h := c5_amended "2024-03-15 14:30:00" "0123456789abcdef0123456789abcdef"
    "/tmp/cert_d.html" ⟨fun _ => Except.ok "PDFBYTES", none⟩ []
    [("capacity", "2TB")] rfl (by simp)
  exact ⟨h.1.trans rfl, h.2.1⟩

/-- C6 counterexample: when certificate_id is absent the handler builds the
filename from the default literal "unknown" (line 818), not from the
synthesized display identifier embedded in the document, so the filename
does not derive from the resolved identifier in the absent case. -/
theorem c6_counterexample :
    (generate_certificate "2024-03-15 14:30:00" "2024-03-15T14:30:00"
        "0123456789abcdef0123456789abcdef"
        ⟨fun _ => Except.ok "PDFBYTES", none⟩ "/tmp/cert_b.html" []
        (some [("final_status", "PASSED")])).1
      = HttpResponse.json 200
          [("success", JVal.b true),
           ("message", JVal.s "Professional certificate generated successfully"),
           ("pdf_base64", JVal.s "PDFBYTES"),
           ("filename", JVal.s "certificate_unknown.pdf"),
           ("generated_at", JVal.s "2024-03-15T14:30:00")]
    ∧ resolve_cert_id "0123456789abcdef0123456789abcdef" [("final_status", "PASSED")]
      = "CERT-01234567"
    ∧ ("certificate_unknown.pdf" : String) ≠ "certificate_CERT-01234567.pdf" :=
  ⟨by decide, by decide, by decide⟩

/-- C6 (amended): on a successful render the handler returns success with
filename "certificate_" + data.get("certificate_id", "unknown") + ".pdf":
this equals the name derived from the resolved display identifier whenever
certificate_id is present, and it is the fixed "certificate_unknown.pdf"
(unrelated to the synthesized identifier) when certificate_id is absent. -/
theorem c6_amended (now nowIso uuidHex tempPath : String) (env : RenderEnv)
    (fs : List String) (data : AttrSet) (pdf : String)
    (hne : data.isEmpty = false) (hclean : env.unlink = none)
    (hok : env.render (create_certificate_html now uuidHex data) = Except.ok pdf) :
    (generate_certificate now nowIso uuidHex env tempPath fs (some data)).1
      = HttpResponse.json 200
          [("success", JVal.b true),
           ("message", JVal.s "Professional certificate generated successfully"),
           ("pdf_base64", JVal.s pdf),
           ("filename", JVal.s ("certificate_" ++ pyGet data "certificate_id" "unknown" ++ ".pdf")),
           ("generated_at", JVal.s nowIso)]
    ∧ (∀ cid, data.lookup "certificate_id" = some cid →
        "certificate_" ++ pyGet data "certificate_id" "unknown" ++ ".pdf"
          = "certificate_" ++ resolve_cert_id uuidHex data ++ ".pdf")
    ∧ (data.lookup "certificate_id" = none →
        "certificate_" ++ pyGet data "certificate_id" "unknown" ++ ".pdf"
          = "certificate_unknown.pdf") := by
  have hc : (tempPath :: fs).contains tempPath = true := by simp
  have he : (tempPath :: fs).erase tempPath = fs := by
    simp [List.erase_cons_head]
  have hres : (create_certificate now uuidHex env tempPath fs data).result
      = Except.ok pdf := by
    simp only [create_certificate, hclean, hc, if_true, he, hok]
  refine ⟨?_, ?_, ?_⟩
  · simp only [generate_certificate, hne, Bool.false_eq_true, if_false, hres]
  · intro cid h
    simp [pyGet, resolve_cert_id, h]
  · intro h
    simp [pyGet, h]

/-- Witness for c6_amended at the end-to-end example of the specification:
certificate_id CERT-TEST-1 yields filename certificate_CERT-TEST-1.pdf. -/
theorem c6_amended_witness :
    (generate_certificate "2024-03-15 14:30:00" "2024-03-15T14:30:00"
        "0123456789abcdef0123456789abcdef"
        ⟨fun _ => Except.ok "PDFBYTES", none⟩ "/tmp/cert_e.html" []
        (some [("certificate_id", "CERT-TEST-1"), ("final_status", "PASSED"),
               ("device_type", "SSD")])).1
      = HttpResponse.json 200
          [("success", JVal.b true),
           ("message", JVal.s "Professional certificate generated successfully"),
           ("pdf_base64", JVal.s "PDFBYTES"),
           ("filename", JVal.s "certificate_CERT-TEST-1.pdf"),
           ("generated_at", JVal.s "2024-03-15T14:30:00")] := by
  have h := c6_amended "2024-03-15 14:30:00" "2024-03-15T14:30:00"
    "0123456789abcdef0123456789abcdef" "/tmp/cert_e.html"
    ⟨fun _ => Except.ok "PDFBYTES", none⟩ []
    [("certificate_id", "CERT-TEST-1"), ("final_status", "PASSED"),
     ("device_type", "SSD")] "PDFBYTES" rfl rfl rfl
  refine h.1.trans ?_
  decide

/-- C7 counterexample: on an absent input attribute set the test operation
answers with a normal 200 success message (lines 891-896 have no error
branch), not with a structured error response as the claim states for every
operation taking an attribute set. -/
theorem c7_counterexample :
    isErrorResponse (test_endpoint "2024-03-15T14:30:00" none) = false :=
  rfl

/-- C7 (amended): on a missing or empty input attribute set, generate,
generate_file and preview each return a structured 400 error response rather
than letting an exception escape, while test returns its normal 200 success
response reporting zero received parameters. -/
theorem c7_amended (now nowIso ts uuidHex tempPath : String) (env : RenderEnv)
    (fs : List String) (input : Option AttrSet)
    (hmiss : input = none ∨ input = some []) :
    isErrorResponse (generate_certificate now nowIso uuidHex env tempPath fs input).1 = true
    ∧ isErrorResponse (generate_certificate_file now ts uuidHex env tempPath fs input).1 = true
    ∧ isErrorResponse (preview_certificate now uuidHex input) = true
    ∧ test_endpoint nowIso input
      = HttpResponse.json 200
          [("message", JVal.s "Professional Certificate API is working"),
           ("received_params", JVal.n 0),
           ("timestamp", JVal.s nowIso)] := by
  rcases hmiss with rfl | rfl <;> exact ⟨rfl, rfl, rfl, rfl⟩

/-- Witness for c7_amended at the concrete missing input `none`. -/
theorem c7_amended_witness :
    isErrorResponse (generate_certificate "2024-03-15 14:30:00" "2024-03-15T14:30:00"
        "0123456789abcdef0123456789abcdef"
        ⟨fun _ => Except.ok "PDFBYTES", none⟩ "/tmp/cert_f.html" [] none).1 = true
    ∧ test_endpoint "2024-03-15T14:30:00" none
      = HttpResponse.json 200
          [("message", JVal.s "Professional Certificate API is working"),
           ("received_params", JVal.n 0),
           ("timestamp", JVal.s "2024-03-15T14:30:00")] := by
  have h := c7_amended "2024-03-15 14:30:00" "2024-03-15T14:30:00" "20240315_143000"
    "0123456789abcdef0123456789abcdef" "/tmp/cert_f.html"
    ⟨fun _ => Except.ok "PDFBYTES", none⟩ [] none (Or.inl rfl)
  exact ⟨h.1, h.2.2.2⟩

/-- C8 counterexample: the claim says every renderer failure reaches the
boundary carrying the renderer diagnostic.  When the cleanup deletion also
raises, the unlink error replaces the renderer diagnostic (Python finally
semantics at line 790): the structured failure response carries the unlink
message and does not contain the renderer diagnostic "wkhtmltopdf exited". -/
theorem c8_counterexample :
    (generate_certificate "2024-03-15 14:30:00" "2024-03-15T14:30:00"
        "0123456789abcdef0123456789abcdef"
        ⟨fun _ => Except.error "wkhtmltopdf exited with a non-zero code",
         some "unlink failed: device busy"⟩ "/tmp/cert_g.html" []
        (some [("device_type", "SSD")])).1
      = HttpResponse.json 500
          [("success", JVal.b false),
           ("error", JVal.s "Failed to generate certificate: unlink failed: device busy")]
    ∧ pyContains "Failed to generate certificate: unlink failed: device busy"
        "wkhtmltopdf" = false :=
  ⟨by decide, by decide⟩

/-- C8 (amended): whenever the cleanup deletion itself succeeds, a renderer
invocation failure propagates out of create_certificate unchanged as the
exception carrying the renderer diagnostic, with no retry (the renderer is
invoked exactly once per call, structurally) and no partial artifact, and
the boundary converts it into a structured 500 failure response whose error
text contains that diagnostic; when the deletion also fails, the deletion
error replaces the diagnostic but the response is still a structured
failure, never a raw crash. -/
theorem c8_amended (now nowIso uuidHex tempPath : String) (env : RenderEnv)
    (fs : List String) (data : AttrSet) (msg : String)
    (hne : data.isEmpty = false) (hclean : env.unlink = none)
    (hfail : env.render (create_certificate_html now uuidHex data)
      = Except.error msg) :
    (create_certificate now uuidHex env tempPath fs data).result
      = Except.error msg
    ∧ (generate_certificate now nowIso uuidHex env tempPath fs (some data)).1
      = HttpResponse.json 500
          [("success", JVal.b false),
           ("error", JVal.s ("Failed to generate certificate: " ++ msg))]
    ∧ pyContains ("Failed to generate certificate: " ++ msg) msg = true := by
  have hc : (tempPath :: fs).contains tempPath = true := by simp
  have he : (tempPath :: fs).erase tempPath = fs := by
    simp [List.erase_cons_head]
  have hres : (create_certificate now uuidHex env tempPath fs data).result
      = Except.error msg := by
    simp only [create_certificate, hclean, hc, if_true, he, hfail]
  refine ⟨hres, ?_, ?_⟩
  · simp only [generate_certificate, hne, Bool.false_eq_true, if_false, hres]
  · show charsInfixOf msg.data ("Failed to generate certificate: " ++ msg).data = true
    rw [String.data_append]
    exact charsInfixOf_append_self msg.data _

/-- Witness for c8_amended: a missing renderer binary surfaces its
diagnostic in the structured 500 response. -/
theorem c8_amended_witness :
    (generate_certificate "2024-03-15 14:30:00" "2024-03-15T14:30:00"
        "0123456789abcdef0123456789abcdef"
        ⟨fun _ => Except.error "No wkhtmltopdf executable found", none⟩
        "/tmp/cert_h.html" [] (some [("device_type", "SSD")])).1
      = HttpResponse.json 500
          [("success", JVal.b false),
           ("error", JVal.s "Failed to generate certificate: No wkhtmltopdf executable found")] := by
  have h := c8_amended "2024-03-15 14:30:00" "2024-03-15T14:30:00"
    "0123456789abcdef0123456789abcdef" "/tmp/cert_h.html"
    ⟨fun _ => Except.error "No wkhtmltopdf executable found", none⟩
    [] [("device_type", "SSD")]
    "No wkhtmltopdf executable found" rfl rfl rfl
  refine h.2.1.trans ?_
  decide
